import Mathlib

/-!
# Duplicate-session detection over a broadcast channel — verification

Shallow embedding of the peer-to-peer duplicate-session detector
(`src/main.js`, session page) and its message codec (`src/utils.js`).

Modelling notes:
* A broadcast message is a record of plain fields.  Payload fields that a
  JS object may lack (`hash`, `queryId`, `sessionId`) are `Option String`,
  with `none` standing for `undefined`; a strict equality test
  `msgData.x === localString` becomes `msg.x = some localString`, which is
  false when the field is absent, exactly as `undefined === "…"` is.
* One session instance is a record of its module-level state
  (`sessionHash`, `isVerified`, `isClosingAsDuplicate`), the state of the
  one duplicate check `initialize` runs (the transient `handleClaim`
  listener, the generated `queryId`, the list of `resolve` calls made on
  the check's promise), whether the 300 ms timer has fired, whether the
  channel was closed, and the list of messages it has posted.
* The event loop is a step function over external events: delivery of a
  bus message (which runs the permanent `handleMessage` dispatcher and,
  while installed, the transient `handleClaim` listener), the 300 ms
  duplicate-check timer, the 500 ms duplicate-teardown timer, the
  `beforeunload` handler, and a click on the close button
  (`closeSession`).  Microtasks drain between events, so the `await` in
  `initialize` resumes (running `registerSession` or `closeAsDuplicate`)
  inside the step in which the promise is first resolved.
* `Date.now()` timestamps are diagnostic; each event carries the
  timestamp the handlers would read.
* Nothing is delivered on a closed channel, and `postMessage` on a closed
  channel throws before sending, so steps on a closed channel post
  nothing; timers no longer fire once the page is torn down.
-/

namespace BroadcastPoc

/-- Constant `CHANNEL_NAME` from `src/utils.js`. -/
def CHANNEL_NAME : String := "poc-session-channel"

/-! The `MESSAGE_TYPES` enumeration from `src/utils.js` (session POC). -/

namespace MESSAGE_TYPES

def SESSION_HASH_QUERY : String := "session-hash-query"

def SESSION_HASH_CLAIM : String := "session-hash-claim"

def SESSION_REGISTERED : String := "session-registered"

def SESSION_CLOSED : String := "session-closed"

end MESSAGE_TYPES

/-- A value posted on the channel: the `type` discriminator and
`timestamp` are always set by the factories; the payload fields are
`Option String` because a delivered object may lack any of them. -/
structure Message where
  type : String
  timestamp : Nat
  hash : Option String := none
  queryId : Option String := none
  sessionId : Option String := none
deriving DecidableEq, Repr

/-- Function `createBaseMessage` from `src/utils.js`: type tag plus timestamp. -/
def createBaseMessage (type : String) (ts : Nat) : Message :=
  { type := type, timestamp := ts }

/-- Function `createHashQueryMessage(hash, queryId)` from `src/utils.js`. -/
def createHashQueryMessage (hash queryId : Option String) (ts : Nat) : Message :=
  { createBaseMessage MESSAGE_TYPES.SESSION_HASH_QUERY ts with
      hash := hash, queryId := queryId }

/-- Function `createHashClaimMessage(hash, queryId, sessionId)` from `src/utils.js`. -/
def createHashClaimMessage (hash queryId sessionId : Option String) (ts : Nat) :
    Message :=
  { createBaseMessage MESSAGE_TYPES.SESSION_HASH_CLAIM ts with
      hash := hash, queryId := queryId, sessionId := sessionId }

/-- Function `createSessionRegisteredMessage(sessionId, hash)` from `src/utils.js`. -/
def createSessionRegisteredMessage (sessionId hash : Option String) (ts : Nat) :
    Message :=
  { createBaseMessage MESSAGE_TYPES.SESSION_REGISTERED ts with
      sessionId := sessionId, hash := hash }

/-- Function `createSessionClosedMessage(sessionId)` from `src/utils.js`. -/
def createSessionClosedMessage (sessionId : Option String) (ts : Nat) : Message :=
  { createBaseMessage MESSAGE_TYPES.SESSION_CLOSED ts with
      sessionId := sessionId }

/-- The whole observable state of one session page (`src/main.js`):
module-level constants and mutable state, the state of the single
duplicate check started by `initialize`, and what it has posted. -/
structure Session where
  /-- Field `sessionHash`: the contested identity (URL hash parameter). -/
  sessionHash : String
  /-- The `queryId` generated inside `checkForDuplicates`. -/
  queryId : String
  /-- The `isVerified` flag. -/
  isVerified : Bool
  /-- The `isClosingAsDuplicate` flag. -/
  isClosingAsDuplicate : Bool
  /-- Whether the transient `handleClaim` listener is still attached. -/
  listenerActive : Bool
  /-- Every call made to the check promise's `resolve`, in order.  A JS
  promise keeps only the first, but recording all calls lets us prove
  there never is a second one. -/
  resolveCalls : List Bool
  /-- How many times `registerSession()` has been called. -/
  registerCalls : Nat
  /-- Whether the 300 ms `DUPLICATE_CHECK_TIMEOUT` timer has fired. -/
  timeoutFired : Bool
  /-- Whether `channel.close()` has run. -/
  channelClosed : Bool
  /-- Messages posted on the channel, oldest first. -/
  sent : List Message
deriving DecidableEq, Repr

/-- Definition `const sessionId = sessionHash` in `src/main.js`. -/
def Session.sessionId (s : Session) : String := s.sessionHash

/-- Constant `DUPLICATE_CHECK_TIMEOUT` (ms) from `src/main.js`. -/
def DUPLICATE_CHECK_TIMEOUT : Nat := 300

/-- External events driving one session's event loop. -/
inductive Event where
  /-- The bus delivers `msg`; handlers run with clock reading `ts`. -/
  | deliver (msg : Message) (ts : Nat)
  /-- The 300 ms timer inside `checkForDuplicates` fires. -/
  | timeout (ts : Nat)
  /-- The 500 ms teardown timer scheduled by `closeAsDuplicate` fires. -/
  | dupTeardown
  /-- The window fires `beforeunload`. -/
  | beforeunload (ts : Nat)
  /-- The user clicks the close button (`closeSession`). -/
  | closeClick (ts : Nat)
deriving DecidableEq, Repr

/-- The messages the permanent dispatcher `handleMessage` posts for one
delivered message.  `handleMessage` never mutates session state: the
hash-query branch answers verified matching queries with a claim and
returns; the self-echo check and the `switch` below it only log. -/
def handleMessageSends (s : Session) (msg : Message) (ts : Nat) : List Message :=
  if msg.type = MESSAGE_TYPES.SESSION_HASH_QUERY then
    if s.isVerified = true ∧ msg.hash = some s.sessionHash then
      [createHashClaimMessage (some s.sessionHash) msg.queryId (some s.sessionId) ts]
    else []
  else []

/-- The match test of the transient `handleClaim` listener inside
`checkForDuplicates`: claim type, this check's `queryId`, this session's
hash.  It inspects no other field (in particular not `sessionId`). -/
def claimMatches (sessionHash queryId : String) (msg : Message) : Bool :=
  msg.type = MESSAGE_TYPES.SESSION_HASH_CLAIM
    ∧ msg.queryId = some queryId ∧ msg.hash = some sessionHash

/-- Function `registerSession()` from `src/main.js`: posts a session-registered
message carrying `sessionId` and `sessionHash` (UI update elided). -/
def registerSession (s : Session) (ts : Nat) : Session :=
  { s with
      sent := s.sent
        ++ [createSessionRegisteredMessage (some s.sessionId) (some s.sessionHash) ts],
      registerCalls := s.registerCalls + 1 }

/-- Function `closeAsDuplicate()` from `src/main.js`: sets `isClosingAsDuplicate`
and schedules the 500 ms teardown timer (the `Event.dupTeardown` event);
it posts nothing. -/
def closeAsDuplicate (s : Session) : Session :=
  { s with isClosingAsDuplicate := true }

/-- The remainder of `initialize` after `await checkForDuplicates()`:
on `true` set `isVerified` and call `registerSession`, else call
`closeAsDuplicate`. -/
def initializeTail (s : Session) (isUnique : Bool) (ts : Nat) : Session :=
  if isUnique then registerSession { s with isVerified := true } ts
  else closeAsDuplicate s

/-- A call to the check promise's `resolve`.  Only the first call settles
the promise, so the `await` continuation (`initializeTail`) runs exactly
when the previous call list was empty; it runs before the next external
event because microtasks drain between event-loop tasks. -/
def resolvePromise (s : Session) (v : Bool) (ts : Nat) : Session :=
  if s.resolveCalls = [] then
    initializeTail { s with resolveCalls := s.resolveCalls ++ [v] } v ts
  else
    { s with resolveCalls := s.resolveCalls ++ [v] }

/-- One event-loop step of a session page. -/
def step (s : Session) (e : Event) : Session :=
  match e with
  | .deliver msg ts =>
      -- a closed channel delivers nothing
      if s.channelClosed = true then s
      else
        -- `channel.onmessage = handleMessage` (permanent, pure dispatcher)
        let s1 : Session := { s with sent := s.sent ++ handleMessageSends s msg ts }
        -- the transient `handleClaim` listener, while attached
        if s1.listenerActive = true ∧ claimMatches s1.sessionHash s1.queryId msg = true
        then resolvePromise { s1 with listenerActive := false } false ts
        else s1
  | .timeout ts =>
      -- timers do not outlive the page; the timer fires at most once
      if s.channelClosed = true then s
      else if s.timeoutFired = true then s
      else
        let s1 : Session := { s with timeoutFired := true, listenerActive := false }
        if s1.isClosingAsDuplicate = true then s1
        else resolvePromise s1 true ts
  | .dupTeardown =>
      -- scheduled only by `closeAsDuplicate`: `channel.close(); window.close()`
      if s.isClosingAsDuplicate = true then { s with channelClosed := true } else s
  | .beforeunload ts =>
      if s.channelClosed = true then s
      else if s.isClosingAsDuplicate = true then { s with channelClosed := true }
      else
        { s with
            sent := s.sent ++ [createSessionClosedMessage (some s.sessionId) ts],
            channelClosed := true }
  | .closeClick ts =>
      -- `closeSession()`: post session-closed, close channel, close window
      if s.channelClosed = true then s
      else
        { s with
            sent := s.sent ++ [createSessionClosedMessage (some s.sessionId) ts],
            channelClosed := true }

/-- The state right after page load: `initialize` has called
`checkForDuplicates`, which generated `queryId`, attached the transient
listener and posted the hash-query. -/
def startSession (h qid : String) (ts : Nat) : Session :=
  { sessionHash := h
    queryId := qid
    isVerified := false
    isClosingAsDuplicate := false
    listenerActive := true
    resolveCalls := []
    registerCalls := 0
    timeoutFired := false
    channelClosed := false
    sent := [createHashQueryMessage (some h) (some qid) ts] }

/-- Run a session through a list of events. -/
def run (s : Session) (tr : List Event) : Session := tr.foldl step s

/-! ## Invariant predicates -/

/-- Inductive invariant tying the promise's `resolve` calls to the guards
that prevent a second one: the transient listener only survives while no
resolution happened; `isClosingAsDuplicate` is set exactly by the
`Duplicate` resolution; the timer fires at most once and a `Unique`
resolution comes from it. -/
def ResolveInv (s : Session) : Prop :=
  (s.listenerActive = true → s.resolveCalls = [])
  ∧ (s.isClosingAsDuplicate = true → s.resolveCalls = [false])
  ∧ (s.resolveCalls = [false] → s.isClosingAsDuplicate = true)
  ∧ (s.timeoutFired = true → s.resolveCalls.length = 1)
  ∧ (s.resolveCalls = [true] → s.timeoutFired = true)
  ∧ s.resolveCalls.length ≤ 1

/-- A session whose check resolved `Duplicate`: unverified, flagged as
closing, transient listener removed. -/
def DupLocked (s : Session) : Prop :=
  s.isVerified = false ∧ s.isClosingAsDuplicate = true ∧ s.listenerActive = false

/-- The unregistered-silence invariant: while unverified, no hash-claim
appears among the session's posted messages. -/
def NoClaimWhileUnverified (s : Session) : Prop :=
  s.isVerified = false →
    ∀ m ∈ s.sent, m.type ≠ MESSAGE_TYPES.SESSION_HASH_CLAIM

/-! ## A concrete two-session scenario for hash `"abc"` -/

/-- First session for hash `"abc"`, just after page load. -/
def sessionA0 : Session := startSession "abc" "q0" 0

/-- The first session once its 300 ms timer fired with no claim seen:
verified and registered. -/
def sessionA1 : Session := step sessionA0 (.timeout 1)

/-- A second session for hash `"abc"`, starting its duplicate check. -/
def sessionB0 : Session := startSession "abc" "q1" 2

/-- The claim `sessionA1` posts when `sessionB0`'s query reaches it. -/
def claimAB : Message := createHashClaimMessage (some "abc") (some "q1") (some "abc") 3

/-- The second session after the claim is delivered: resolved `Duplicate`. -/
def sessionB1 : Session := step sessionB0 (.deliver claimAB 4)

/-- A hash-query for `"abc"` that carries the local `sessionId` — the
shape a crafted self-addressed query would have. -/
def queryWithOwnId : Message :=
  { type := MESSAGE_TYPES.SESSION_HASH_QUERY, timestamp := 2,
    hash := some "abc", queryId := some "q9", sessionId := some "abc" }

/-! ## Basic step lemmas -/

theorem run_nil (s : Session) : run s [] = s := rfl

theorem run_cons (s : Session) (e : Event) (tr : List Event) :
    run s (e :: tr) = run (step s e) tr := rfl

/-- An unverified session's dispatcher posts nothing. -/
theorem handleMessageSends_of_unverified (s : Session) (m : Message) (ts : Nat)
    (hv : s.isVerified = false) : handleMessageSends s m ts = [] := by
  simp [handleMessageSends, hv]

/-- Delivering a message that fails the transient listener's match test to
an unverified session changes nothing at all. -/
theorem step_deliver_of_unverified_nonmatching (s : Session) (m : Message) (ts : Nat)
    (hv : s.isVerified = false)
    (hm : claimMatches s.sessionHash s.queryId m = false) :
    step s (.deliver m ts) = s := by
  by_cases hc : s.channelClosed = true
  · simp [step, hc]
  · simp only [step]
    rw [if_neg hc]
    simp [handleMessageSends_of_unverified s m ts hv, hm]

/-- Flag `isVerified` is never reset. -/
theorem isVerified_mono (s : Session) (e : Event)
    (hv : s.isVerified = true) : (step s e).isVerified = true := by
  cases e with
  | deliver msg ts =>
      by_cases hc : s.channelClosed = true
      · simpa [step, hc]
      · by_cases hl : s.listenerActive = true
          ∧ claimMatches s.sessionHash s.queryId msg = true
        · simp [step, hc, hl, resolvePromise, initializeTail, closeAsDuplicate,
            registerSession, hv]
          split <;> simp [hv]
        · simp [step, hc, hl, hv]
  | timeout ts =>
      by_cases hc : s.channelClosed = true
      · simpa [step, hc]
      · by_cases hf : s.timeoutFired = true
        · simpa [step, hc, hf]
        · by_cases hd : s.isClosingAsDuplicate = true
          · simp [step, hc, hf, hd, hv]
          · simp [step, hc, hf, hd, resolvePromise, initializeTail,
              registerSession, hv]
            split <;> simp [hv]
  | dupTeardown =>
      by_cases hd : s.isClosingAsDuplicate = true <;> simp [step, hd, hv]
  | beforeunload ts =>
      by_cases hc : s.channelClosed = true
      · simpa [step, hc]
      · by_cases hd : s.isClosingAsDuplicate = true <;> simp [step, hc, hd, hv]
  | closeClick ts =>
      by_cases hc : s.channelClosed = true <;> simp [step, hc, hv]

/-! ## At-most-once resolution invariant -/

theorem resolveInv_start (h qid : String) (ts : Nat) :
    ResolveInv (startSession h qid ts) := by
  simp [ResolveInv, startSession]

theorem resolveInv_step (s : Session) (e : Event) (hs : ResolveInv s) :
    ResolveInv (step s e) := by
  obtain ⟨h1, h2, h3, h4, h5, h6⟩ := hs
  cases e with
  | deliver msg ts =>
      by_cases hc : s.channelClosed = true
      · simp only [step]
        rw [if_pos hc]
        exact ⟨h1, h2, h3, h4, h5, h6⟩
      · simp only [step]
        rw [if_neg hc]
        by_cases hl : s.listenerActive = true
          ∧ claimMatches s.sessionHash s.queryId msg = true
        · have hres : s.resolveCalls = [] := h1 hl.1
          rw [if_pos (by simpa using hl)]
          simp [resolvePromise, hres, initializeTail, closeAsDuplicate, ResolveInv]
        · rw [if_neg (by simpa using hl)]
          exact ⟨h1, h2, h3, h4, h5, h6⟩
  | timeout ts =>
      by_cases hc : s.channelClosed = true
      · simp only [step]
        rw [if_pos hc]
        exact ⟨h1, h2, h3, h4, h5, h6⟩
      · by_cases hf : s.timeoutFired = true
        · simp only [step]
          rw [if_neg hc, if_pos hf]
          exact ⟨h1, h2, h3, h4, h5, h6⟩
        · by_cases hd : s.isClosingAsDuplicate = true
          · have : s.resolveCalls = [false] := h2 hd
            simp [step, hc, hf, hd, ResolveInv, this]
          · have hres : s.resolveCalls = [] := by
              match hrc : s.resolveCalls, h6 with
              | [], _ => rfl
              | [false], _ => exact absurd (h3 hrc) hd
              | [true], _ => exact absurd (h5 hrc) hf
            simp [step, hc, hf, hd, resolvePromise, hres, initializeTail,
              registerSession, ResolveInv]
  | dupTeardown =>
      by_cases hd : s.isClosingAsDuplicate = true
      · simp only [step]
        rw [if_pos hd]
        exact ⟨h1, h2, h3, h4, h5, h6⟩
      · simp only [step]
        rw [if_neg hd]
        exact ⟨h1, h2, h3, h4, h5, h6⟩
  | beforeunload ts =>
      by_cases hc : s.channelClosed = true
      · simp only [step]
        rw [if_pos hc]
        exact ⟨h1, h2, h3, h4, h5, h6⟩
      · by_cases hd : s.isClosingAsDuplicate = true
        · simp only [step]
          rw [if_neg hc, if_pos hd]
          exact ⟨h1, h2, h3, h4, h5, h6⟩
        · simp only [step]
          rw [if_neg hc, if_neg hd]
          exact ⟨h1, h2, h3, h4, h5, h6⟩
  | closeClick ts =>
      by_cases hc : s.channelClosed = true
      · simp only [step]
        rw [if_pos hc]
        exact ⟨h1, h2, h3, h4, h5, h6⟩
      · simp only [step]
        rw [if_neg hc]
        exact ⟨h1, h2, h3, h4, h5, h6⟩

theorem resolveInv_run (s : Session) (tr : List Event) (hs : ResolveInv s) :
    ResolveInv (run s tr) := by
  induction tr generalizing s with
  | nil => exact hs
  | cons e tr ih => exact ih (step s e) (resolveInv_step s e hs)

/-! ## The duplicate-resolved session is locked out of registration -/

theorem dupLocked_step (s : Session) (e : Event) (hs : DupLocked s) :
    DupLocked (step s e)
      ∧ (step s e).registerCalls = s.registerCalls
      ∧ ((∀ ts, e ≠ .closeClick ts) → (step s e).sent = s.sent) := by
  obtain ⟨hv, hd, hl⟩ := hs
  cases e with
  | deliver msg ts =>
      by_cases hc : s.channelClosed = true
      · simp only [step]
        rw [if_pos hc]
        exact ⟨⟨hv, hd, hl⟩, rfl, fun _ => rfl⟩
      · simp only [step]
        rw [if_neg hc]
        rw [if_neg (by simp [hl])]
        rw [handleMessageSends_of_unverified s msg ts hv]
        exact ⟨⟨hv, hd, hl⟩, rfl, fun _ => by simp⟩
  | timeout ts =>
      by_cases hc : s.channelClosed = true
      · simp only [step]
        rw [if_pos hc]
        exact ⟨⟨hv, hd, hl⟩, rfl, fun _ => rfl⟩
      · by_cases hf : s.timeoutFired = true
        · simp only [step]
          rw [if_neg hc, if_pos hf]
          exact ⟨⟨hv, hd, hl⟩, rfl, fun _ => rfl⟩
        · simp only [step]
          rw [if_neg hc, if_neg hf, if_pos hd]
          exact ⟨⟨hv, hd, rfl⟩, rfl, fun _ => rfl⟩
  | dupTeardown =>
      simp only [step]
      rw [if_pos hd]
      exact ⟨⟨hv, hd, hl⟩, rfl, fun _ => rfl⟩
  | beforeunload ts =>
      by_cases hc : s.channelClosed = true
      · simp only [step]
        rw [if_pos hc]
        exact ⟨⟨hv, hd, hl⟩, rfl, fun _ => rfl⟩
      · simp only [step]
        rw [if_neg hc, if_pos hd]
        exact ⟨⟨hv, hd, hl⟩, rfl, fun _ => rfl⟩
  | closeClick ts =>
      by_cases hc : s.channelClosed = true
      · simp only [step]
        rw [if_pos hc]
        exact ⟨⟨hv, hd, hl⟩, rfl, fun _ => rfl⟩
      · simp only [step]
        rw [if_neg hc]
        refine ⟨⟨hv, hd, hl⟩, rfl, fun h => absurd rfl (h ts)⟩

theorem dupLocked_run (s : Session) (tr : List Event) (hs : DupLocked s) :
    DupLocked (run s tr) ∧ (run s tr).registerCalls = s.registerCalls := by
  induction tr generalizing s with
  | nil => exact ⟨hs, rfl⟩
  | cons e tr ih =>
      obtain ⟨hstep, hreg, _⟩ := dupLocked_step s e hs
      obtain ⟨h1, h2⟩ := ih (step s e) hstep
      exact ⟨h1, h2.trans hreg⟩

theorem dupLocked_run_sent (s : Session) (tr : List Event) (hs : DupLocked s)
    (hncc : ∀ e ∈ tr, ∀ ts, e ≠ .closeClick ts) :
    (run s tr).sent = s.sent := by
  induction tr generalizing s with
  | nil => rfl
  | cons e tr ih =>
      obtain ⟨hstep, _, hsent⟩ := dupLocked_step s e hs
      have h1 : (run (step s e) tr).sent = (step s e).sent :=
        ih (step s e) hstep (fun e' he' => hncc e' (List.mem_cons_of_mem _ he'))
      rw [run_cons, h1, hsent (hncc e (List.mem_cons_self _ _))]

/-! ## No hash-claim is ever posted by an unverified session -/

/-- Any message the dispatcher posts is a claim answering a matching query
while verified. -/
theorem handleMessageSends_claim_guard (s : Session) (msg : Message) (ts : Nat)
    (m : Message) (hm : m ∈ handleMessageSends s msg ts) :
    s.isVerified = true ∧ msg.type = MESSAGE_TYPES.SESSION_HASH_QUERY
      ∧ msg.hash = some s.sessionHash
      ∧ m = createHashClaimMessage (some s.sessionHash) msg.queryId (some s.sessionId) ts := by
  by_cases ht : msg.type = MESSAGE_TYPES.SESSION_HASH_QUERY
  · by_cases hg : s.isVerified = true ∧ msg.hash = some s.sessionHash
    · simp [handleMessageSends, ht, hg] at hm
      exact ⟨hg.1, ht, hg.2, hm⟩
    · simp [handleMessageSends, ht, hg] at hm
  · simp [handleMessageSends, ht] at hm

/-- Every message appended by a step of an unverified session is a
session-closed notification; in particular it is not a hash-claim. -/
theorem step_sent_of_unverified (s : Session) (e : Event) (m : Message)
    (hv : s.isVerified = false) (hm : m ∈ (step s e).sent) :
    m ∈ s.sent ∨ m.type = MESSAGE_TYPES.SESSION_CLOSED
      ∨ m.type = MESSAGE_TYPES.SESSION_REGISTERED := by
  cases e with
  | deliver msg ts =>
      by_cases hc : s.channelClosed = true
      · rw [step, if_pos hc] at hm
        exact Or.inl hm
      · rw [step, if_neg hc] at hm
        rw [handleMessageSends_of_unverified s msg ts hv] at hm
        by_cases hl : s.listenerActive = true
          ∧ claimMatches s.sessionHash s.queryId msg = true
        · rw [if_pos (by simpa using hl)] at hm
          by_cases hr : s.resolveCalls = []
          · simp [resolvePromise, hr, initializeTail, closeAsDuplicate] at hm
            exact Or.inl hm
          · simp [resolvePromise, hr, initializeTail, closeAsDuplicate] at hm
            exact Or.inl hm
        · rw [if_neg (by simpa using hl)] at hm
          simp at hm
          exact Or.inl hm
  | timeout ts =>
      by_cases hc : s.channelClosed = true
      · rw [step, if_pos hc] at hm
        exact Or.inl hm
      · by_cases hf : s.timeoutFired = true
        · rw [step, if_neg hc, if_pos hf] at hm
          exact Or.inl hm
        · by_cases hd : s.isClosingAsDuplicate = true
          · rw [step, if_neg hc, if_neg hf, if_pos hd] at hm
            exact Or.inl hm
          · rw [step, if_neg hc, if_neg hf, if_neg hd] at hm
            by_cases hr : s.resolveCalls = []
            · simp [resolvePromise, hr, initializeTail, registerSession] at hm
              rcases hm with hm | hm
              · exact Or.inl hm
              · subst hm
                exact Or.inr (Or.inr rfl)
            · simp [resolvePromise, hr, initializeTail, registerSession] at hm
              exact Or.inl hm
  | dupTeardown =>
      by_cases hd : s.isClosingAsDuplicate = true
      · rw [step, if_pos hd] at hm
        exact Or.inl hm
      · rw [step, if_neg hd] at hm
        exact Or.inl hm
  | beforeunload ts =>
      by_cases hc : s.channelClosed = true
      · rw [step, if_pos hc] at hm
        exact Or.inl hm
      · by_cases hd : s.isClosingAsDuplicate = true
        · rw [step, if_neg hc, if_pos hd] at hm
          exact Or.inl hm
        · rw [step, if_neg hc, if_neg hd] at hm
          simp [createSessionClosedMessage, createBaseMessage] at hm
          rcases hm with hm | hm
          · exact Or.inl hm
          · subst hm
            exact Or.inr (Or.inl rfl)
  | closeClick ts =>
      by_cases hc : s.channelClosed = true
      · rw [step, if_pos hc] at hm
        exact Or.inl hm
      · rw [step, if_neg hc] at hm
        simp [createSessionClosedMessage, createBaseMessage] at hm
        rcases hm with hm | hm
        · exact Or.inl hm
        · subst hm
          exact Or.inr (Or.inl rfl)

theorem noClaimWhileUnverified_step (s : Session) (e : Event)
    (hs : NoClaimWhileUnverified s) : NoClaimWhileUnverified (step s e) := by
  intro hv m hm
  have hv0 : s.isVerified = false := by
    by_contra h
    have := isVerified_mono s e (by simpa using h)
    rw [this] at hv
    exact Bool.true_eq_false.mp hv
  rcases step_sent_of_unverified s e m hv0 hm with h | h | h
  · exact hs hv0 m h
  · rw [h]
    simp [MESSAGE_TYPES.SESSION_CLOSED, MESSAGE_TYPES.SESSION_HASH_CLAIM]
  · rw [h]
    simp [MESSAGE_TYPES.SESSION_REGISTERED, MESSAGE_TYPES.SESSION_HASH_CLAIM]

theorem noClaimWhileUnverified_run (s : Session) (tr : List Event)
    (hs : NoClaimWhileUnverified s) : NoClaimWhileUnverified (run s tr) := by
  induction tr generalizing s with
  | nil => exact hs
  | cons e tr ih => exact ih (step s e) (noClaimWhileUnverified_step s e hs)

/-! ## The two protocol interactions -/

/-- A query message never passes the transient listener's match test. -/
theorem claimMatches_query (sh q : String) (hash queryId : Option String) (ts : Nat) :
    claimMatches sh q (createHashQueryMessage hash queryId ts) = false := by
  simp [claimMatches, createHashQueryMessage, createBaseMessage,
    MESSAGE_TYPES.SESSION_HASH_QUERY, MESSAGE_TYPES.SESSION_HASH_CLAIM]

/-- A verified open session answers a query for its own hash with a claim
carrying the query's `queryId` and its own `sessionId`; nothing else
changes. -/
theorem verified_session_answers (A : Session) (q2 : String) (tsq tsc : Nat)
    (hA : A.isVerified = true) (hopen : A.channelClosed = false) :
    step A (.deliver (createHashQueryMessage (some A.sessionHash) (some q2) tsq) tsc)
      = { A with
            sent := A.sent
              ++ [createHashClaimMessage (some A.sessionHash) (some q2)
                    (some A.sessionId) tsc] } := by
  simp only [step]
  rw [if_neg (by simp [hopen])]
  rw [if_neg (by simp [claimMatches_query])]
  simp [handleMessageSends, createHashQueryMessage, createBaseMessage, hA]

/-- Delivering a message that passes the match test to a freshly started
session removes the listener, resolves the check with `false`, and runs
`closeAsDuplicate`; nothing is posted. -/
theorem checking_session_resolves_claim (H qB : String) (tsB tsd : Nat) (c : Message)
    (hc : claimMatches H qB c = true) :
    step (startSession H qB tsB) (.deliver c tsd)
      = { startSession H qB tsB with
            listenerActive := false, resolveCalls := [false],
            isClosingAsDuplicate := true } := by
  simp only [step, startSession]
  rw [if_neg (by simp)]
  rw [if_pos (by simpa using hc)]
  simp [handleMessageSends, resolvePromise, initializeTail, closeAsDuplicate,
    MESSAGE_TYPES.SESSION_HASH_QUERY]

/-- While its check is pending, a session that only receives non-matching
messages stays exactly in its start state. -/
theorem run_start_of_nonmatching_delivers (h qid : String) (ts : Nat)
    (tr : List Event)
    (htr : ∀ e ∈ tr, ∃ m tsm, e = Event.deliver m tsm ∧ claimMatches h qid m = false) :
    run (startSession h qid ts) tr = startSession h qid ts := by
  induction tr with
  | nil => rfl
  | cons e tr ih =>
      obtain ⟨m, tsm, he, hm⟩ := htr e (List.mem_cons_self _ _)
      subst he
      rw [run_cons,
        step_deliver_of_unverified_nonmatching _ _ _ rfl (by simpa using hm)]
      exact ih fun e' he' => htr e' (List.mem_cons_of_mem _ he')

/-- The timeout step on a fresh check: resolve `Unique`, mark verified,
register. -/
theorem start_timeout (h qid : String) (ts ts2 : Nat) :
    step (startSession h qid ts) (.timeout ts2)
      = { startSession h qid ts with
            timeoutFired := true, listenerActive := false,
            resolveCalls := [true], isVerified := true, registerCalls := 1,
            sent := [createHashQueryMessage (some h) (some qid) ts,
              createSessionRegisteredMessage (some h) (some h) ts2] } := by
  simp [step, startSession, resolvePromise, initializeTail, registerSession,
    Session.sessionId]

/-- Variant of `verified_session_answers` with the hash abstracted, for
rewriting. -/
theorem verified_session_answers' (A : Session) (H q2 : String) (tsq tsc : Nat)
    (hA : A.isVerified = true) (hopen : A.channelClosed = false)
    (hH : A.sessionHash = H) :
    step A (.deliver (createHashQueryMessage (some H) (some q2) tsq) tsc)
      = { A with
            sent := A.sent
              ++ [createHashClaimMessage (some H) (some q2) (some A.sessionId) tsc] } := by
  subst hH
  exact verified_session_answers A q2 tsq tsc hA hopen

/-- On an open channel the 300 ms timer always completes the check: after
it fires, the promise has been resolved exactly once. -/
theorem resolveInv_timeout_once (s : Session) (ts2 : Nat) (hs : ResolveInv s)
    (hopen : s.channelClosed = false) :
    (step s (.timeout ts2)).resolveCalls.length = 1 := by
  obtain ⟨h1, h2, h3, h4, h5, h6⟩ := hs
  by_cases hf : s.timeoutFired = true
  · simp only [step]
    rw [if_neg (by simp [hopen]), if_pos hf]
    exact h4 hf
  · by_cases hd : s.isClosingAsDuplicate = true
    · simp only [step]
      rw [if_neg (by simp [hopen]), if_neg hf, if_pos hd]
      simp [h2 hd]
    · have hres : s.resolveCalls = [] := by
        match hrc : s.resolveCalls, h6 with
        | [], _ => rfl
        | [false], _ => exact absurd (h3 hrc) hd
        | [true], _ => exact absurd (h5 hrc) hf
      simp only [step]
      rw [if_neg (by simp [hopen]), if_neg hf, if_neg hd]
      simp [resolvePromise, hres, initializeTail, registerSession]

/-- A fresh session has posted only its hash-query, never a claim. -/
theorem noClaim_start (h qid : String) (ts : Nat) :
    NoClaimWhileUnverified (startSession h qid ts) := by
  intro _ m hm
  simp [startSession] at hm
  subst hm
  simp [createHashQueryMessage, createBaseMessage,
    MESSAGE_TYPES.SESSION_HASH_QUERY, MESSAGE_TYPES.SESSION_HASH_CLAIM]

/-! ## The claims -/

/-- Claim C1 (single winner under non-racing start): for every hash `H`,
if a session `A` has resolved `Unique` and registered for `H` (its
`isVerified` is true) and a second session starts a duplicate check for
`H`, then `A` answers the query with a hash-claim carrying the query's
`queryId` and `A`'s `sessionId`, delivery of that claim resolves the
checking session's promise with `false` (`Duplicate`), and from then on
the checking session never calls `registerSession` and its `isVerified`
stays false, whatever happens next. -/
theorem C1_single_winner (A : Session) (H qB : String) (tsB tsq tsc tsd : Nat)
    (hA : A.isVerified = true) (hH : A.sessionHash = H)
    (hopen : A.channelClosed = false) :
    (step A (.deliver (createHashQueryMessage (some H) (some qB) tsq) tsc)).sent
        = A.sent ++ [createHashClaimMessage (some H) (some qB) (some A.sessionId) tsc]
      ∧ (step (startSession H qB tsB)
            (.deliver (createHashClaimMessage (some H) (some qB)
              (some A.sessionId) tsc) tsd)).resolveCalls = [false]
      ∧ ∀ tr,
          (run (step (startSession H qB tsB)
              (.deliver (createHashClaimMessage (some H) (some qB)
                (some A.sessionId) tsc) tsd)) tr).isVerified = false
          ∧ (run (step (startSession H qB tsB)
              (.deliver (createHashClaimMessage (some H) (some qB)
                (some A.sessionId) tsc) tsd)) tr).registerCalls = 0 := by
  subst hH
  have hmatch : claimMatches A.sessionHash qB
      (createHashClaimMessage (some A.sessionHash) (some qB)
        (some A.sessionId) tsc) = true := by
    simp [claimMatches, createHashClaimMessage, createBaseMessage]
  have h2 := checking_session_resolves_claim A.sessionHash qB tsB tsd _ hmatch
  refine ⟨by rw [verified_session_answers' A A.sessionHash qB tsq tsc hA hopen rfl],
    by rw [h2], fun tr => ?_⟩
  rw [h2]
  have hdl : DupLocked { startSession A.sessionHash qB tsB with
      listenerActive := false, resolveCalls := [false],
      isClosingAsDuplicate := true } := ⟨rfl, rfl, rfl⟩
  obtain ⟨⟨hv, _, _⟩, hreg⟩ := dupLocked_run _ tr hdl
  exact ⟨hv, hreg.trans rfl⟩

/-- Claim C1 witness at hash `"abc"`. -/
theorem C1_single_winner_witness :
    sessionA1.isVerified = true ∧ sessionA1.sessionHash = "abc"
      ∧ sessionA1.channelClosed = false
      ∧ (step sessionA1
            (.deliver (createHashQueryMessage (some "abc") (some "q1") 2) 3)).sent
          = sessionA1.sent
            ++ [createHashClaimMessage (some "abc") (some "q1")
                  (some sessionA1.sessionId) 3]
      ∧ (run (step (startSession "abc" "q1" 2)
            (.deliver (createHashClaimMessage (some "abc") (some "q1")
              (some sessionA1.sessionId) 3) 4)) [.timeout 5]).isVerified = false := by
  have h := C1_single_winner sessionA1 "abc" "q1" 2 2 3 4
    (by decide) (by decide) (by decide)
  exact ⟨by decide, by decide, by decide, h.1, (h.2.2 [.timeout 5]).1⟩

/-- Claim C2 (at-most-once resolution): over every event sequence the
check promise's `resolve` is called at most once, and when the 300 ms
timer fires on an open channel the check ends up resolved exactly once
(only the first matching claim acts; the timeout after a claim performs
no second resolution). -/
theorem C2_at_most_once (h qid : String) (ts : Nat) (tr : List Event) (ts2 : Nat) :
    (run (startSession h qid ts) tr).resolveCalls.length ≤ 1
      ∧ ((run (startSession h qid ts) tr).channelClosed = false →
          (step (run (startSession h qid ts) tr) (.timeout ts2)).resolveCalls.length
            = 1) := by
  have hInv := resolveInv_run (startSession h qid ts) tr (resolveInv_start h qid ts)
  exact ⟨hInv.2.2.2.2.2, fun hopen => resolveInv_timeout_once _ ts2 hInv hopen⟩

/-- Claim C2 witness: a claim answering another query is delivered, then
the timer fires: one resolution in total. -/
theorem C2_at_most_once_witness :
    (run (startSession "abc" "q0" 0) [.deliver claimAB 4]).resolveCalls.length ≤ 1
      ∧ (step (run (startSession "abc" "q0" 0) [.deliver claimAB 4])
            (.timeout 5)).resolveCalls.length = 1 := by
  have h := C2_at_most_once "abc" "q0" 0 [.deliver claimAB 4] 5
  exact ⟨h.1, h.2 (by decide)⟩

/-- Claim C3 (unregistered silence): in every reachable state of a
session whose `isVerified` is still false, no posted message is a
hash-claim; and any message the dispatcher posts requires `isVerified`
to be true and the queried hash to equal the session's own hash. -/
theorem C3_unregistered_silence (h qid : String) (ts ts2 : Nat) (tr : List Event)
    (s : Session) (msg m m2 : Message)
    (hunv : (run (startSession h qid ts) tr).isVerified = false)
    (hmem : m ∈ (run (startSession h qid ts) tr).sent)
    (hm2 : m2 ∈ handleMessageSends s msg ts2) :
    m.type ≠ MESSAGE_TYPES.SESSION_HASH_CLAIM
      ∧ s.isVerified = true ∧ msg.hash = some s.sessionHash
      ∧ msg.type = MESSAGE_TYPES.SESSION_HASH_QUERY := by
  obtain ⟨a, b, c, _⟩ := handleMessageSends_claim_guard s msg ts2 m2 hm2
  exact ⟨noClaimWhileUnverified_run (startSession h qid ts) tr
    (noClaim_start h qid ts) hunv m hmem, a, c, b⟩

/-- Claim C3 witness: the fresh session's only posted message is its
query, not a claim; a verified session's answer witnesses the guard. -/
theorem C3_unregistered_silence_witness :
    (createHashQueryMessage (some "abc") (some "q0") 0).type
        ≠ MESSAGE_TYPES.SESSION_HASH_CLAIM
      ∧ sessionA1.isVerified = true
      ∧ (createHashQueryMessage (some "abc") (some "q1") 2).hash
          = some sessionA1.sessionHash
      ∧ (createHashQueryMessage (some "abc") (some "q1") 2).type
          = MESSAGE_TYPES.SESSION_HASH_QUERY :=
  C3_unregistered_silence "abc" "q0" 0 3 [] sessionA1
    (createHashQueryMessage (some "abc") (some "q1") 2)
    (createHashQueryMessage (some "abc") (some "q0") 0)
    (createHashClaimMessage (some "abc") (some "q1") (some "abc") 3)
    (by decide) (by decide) (by decide)

/-- Claim C4 counterexample: the claim says the self-echo filter runs
before any type-based handling, so a hash-query carrying the local
`sessionId` is ignored.  In the code the hash-query branch runs first:
a verified session answers such a query with a claim instead of ignoring
it. -/
theorem C4_counterexample :
    queryWithOwnId.sessionId = some sessionA1.sessionId
      ∧ (step sessionA1 (.deliver queryWithOwnId 3)).sent
          = sessionA1.sent
            ++ [createHashClaimMessage (some "abc") (some "q9") (some "abc") 3] := by
  decide

/-- Claim C4 as amended: the identity filter is applied after the
hash-query branch, not before it: a message carrying the local
`sessionId` whose type is not hash-query is ignored by the dispatcher
(which posts nothing and never mutates state), while a hash-query
carrying the local `sessionId` is still answered when the session is
verified and the hash matches. -/
theorem C4_self_echo_filter (s : Session) (m : Message) (ts : Nat)
    (_hid : m.sessionId = some s.sessionId) :
    (m.type ≠ MESSAGE_TYPES.SESSION_HASH_QUERY → handleMessageSends s m ts = [])
      ∧ (m.type = MESSAGE_TYPES.SESSION_HASH_QUERY → s.isVerified = true →
          m.hash = some s.sessionHash →
          handleMessageSends s m ts
            = [createHashClaimMessage (some s.sessionHash) m.queryId
                  (some s.sessionId) ts]) := by
  constructor
  · intro ht
    simp [handleMessageSends, ht]
  · intro ht hv hh
    simp [handleMessageSends, ht, hv, hh]

/-- Claim C4 (amended) witness: a registered-type self-echo is ignored;
the self-addressed query of the counterexample is answered. -/
theorem C4_self_echo_filter_witness :
    handleMessageSends sessionA1
        (createSessionRegisteredMessage (some "abc") (some "abc") 7) 8 = []
      ∧ handleMessageSends sessionA1 queryWithOwnId 3
        = [createHashClaimMessage (some "abc") (some "q9") (some "abc") 3] := by
  constructor
  · exact (C4_self_echo_filter sessionA1
      (createSessionRegisteredMessage (some "abc") (some "abc") 7) 8
      (by decide)).1 (by decide)
  · exact ((C4_self_echo_filter sessionA1 queryWithOwnId 3
      (by decide)).2 rfl (by decide) (by decide)).trans (by decide)

/-- Claim C5 (correlation correctness): during a pending check (the
session is still unverified), a delivered message whose type is not
hash-claim, or whose `queryId` differs from the locally generated one, or
whose `hash` differs from the session's hash, changes nothing at all:
promise still pending, state and posted messages untouched. -/
theorem C5_correlation (s : Session) (m : Message) (ts : Nat)
    (hv : s.isVerified = false)
    (hm : m.type ≠ MESSAGE_TYPES.SESSION_HASH_CLAIM
      ∨ m.queryId ≠ some s.queryId ∨ m.hash ≠ some s.sessionHash) :
    step s (.deliver m ts) = s := by
  apply step_deliver_of_unverified_nonmatching s m ts hv
  simp only [claimMatches, decide_eq_false_iff_not]
  tauto

/-- Claim C5 witness: a claim with the right hash but a foreign `queryId`
leaves the checking session untouched. -/
theorem C5_correlation_witness :
    step sessionB0
        (.deliver (createHashClaimMessage (some "abc") (some "zzz")
          (some "abc") 5) 6)
      = sessionB0 :=
  C5_correlation sessionB0
    (createHashClaimMessage (some "abc") (some "zzz") (some "abc") 5) 6
    (by decide) (Or.inr (Or.inl (by decide)))

/-- Claim C6 (uniqueness when alone): if only non-matching messages are
delivered before the timer fires, the check resolves `Unique` at the
timeout, `initialize` sets `isVerified` and calls `registerSession`
exactly once, exactly one session-registered message (carrying this
session's id and hash) is posted, and the session then answers a later
query for its hash. -/
theorem C6_unique_when_alone (h qid q2 : String) (ts ts2 tsq tsr : Nat)
    (tr : List Event)
    (htr : ∀ e ∈ tr, ∃ m tsm, e = Event.deliver m tsm
      ∧ claimMatches h qid m = false) :
    (step (run (startSession h qid ts) tr) (.timeout ts2)).resolveCalls = [true]
      ∧ (step (run (startSession h qid ts) tr) (.timeout ts2)).isVerified = true
      ∧ (step (run (startSession h qid ts) tr) (.timeout ts2)).registerCalls = 1
      ∧ (step (run (startSession h qid ts) tr) (.timeout ts2)).sent
          = [createHashQueryMessage (some h) (some qid) ts,
             createSessionRegisteredMessage (some h) (some h) ts2]
      ∧ ((step (run (startSession h qid ts) tr) (.timeout ts2)).sent.filter
            (fun m => m.type = MESSAGE_TYPES.SESSION_REGISTERED)).length = 1
      ∧ (step (step (run (startSession h qid ts) tr) (.timeout ts2))
            (.deliver (createHashQueryMessage (some h) (some q2) tsq) tsr)).sent
          = (step (run (startSession h qid ts) tr) (.timeout ts2)).sent
            ++ [createHashClaimMessage (some h) (some q2) (some h) tsr] := by
  rw [run_start_of_nonmatching_delivers h qid ts tr htr, start_timeout]
  refine ⟨rfl, rfl, rfl, rfl, ?_, ?_⟩
  · simp [createHashQueryMessage, createSessionRegisteredMessage, createBaseMessage,
      MESSAGE_TYPES.SESSION_HASH_QUERY, MESSAGE_TYPES.SESSION_REGISTERED]
  · rw [verified_session_answers'
      { startSession h qid ts with
          timeoutFired := true, listenerActive := false,
          resolveCalls := [true], isVerified := true, registerCalls := 1,
          sent := [createHashQueryMessage (some h) (some qid) ts,
            createSessionRegisteredMessage (some h) (some h) ts2] }
      h q2 tsq tsr rfl rfl rfl]
    exact rfl

/-- Claim C6 witness at hash `"abc"` with an empty delivery history. -/
theorem C6_unique_when_alone_witness :
    (step (run (startSession "abc" "q0" 0) []) (.timeout 1)).resolveCalls = [true]
      ∧ (step (run (startSession "abc" "q0" 0) []) (.timeout 1)).isVerified = true
      ∧ (step (run (startSession "abc" "q0" 0) []) (.timeout 1)).registerCalls = 1
      ∧ (step (step (run (startSession "abc" "q0" 0) []) (.timeout 1))
            (.deliver (createHashQueryMessage (some "abc") (some "q1") 2) 3)).sent
          = (step (run (startSession "abc" "q0" 0) []) (.timeout 1)).sent
            ++ [createHashClaimMessage (some "abc") (some "q1") (some "abc") 3] := by
  have h := C6_unique_when_alone "abc" "q0" "q1" 0 1 2 3 [] (by simp)
  exact ⟨h.1, h.2.1, h.2.2.1, h.2.2.2.2.2⟩

/-- Claim C7 (duplicate teardown never retracts a registration):
`closeAsDuplicate` sets `isClosingAsDuplicate` and posts nothing, and the
`beforeunload` handler posts nothing when `isClosingAsDuplicate` is
true. -/
theorem C7_duplicate_teardown (s s2 : Session) (ts : Nat)
    (hd : s2.isClosingAsDuplicate = true) :
    (closeAsDuplicate s).isClosingAsDuplicate = true
      ∧ (closeAsDuplicate s).sent = s.sent
      ∧ (step s2 (.beforeunload ts)).sent = s2.sent := by
  refine ⟨rfl, rfl, ?_⟩
  by_cases hc : s2.channelClosed = true
  · simp only [step]
    rw [if_pos hc]
  · simp only [step]
    rw [if_neg hc, if_pos hd]

/-- Claim C7 witness on the duplicate-resolved session. -/
theorem C7_duplicate_teardown_witness :
    (closeAsDuplicate sessionB0).isClosingAsDuplicate = true
      ∧ (closeAsDuplicate sessionB0).sent = sessionB0.sent
      ∧ (step sessionB1 (.beforeunload 9)).sent = sessionB1.sent :=
  C7_duplicate_teardown sessionB0 sessionB1 9 (by decide)

/-- Claim C8 (implicit): the claim that answers a checking session's
query carries a `sessionId` equal to the checking session's own
`sessionId` (both equal the contested hash, since `sessionId` is defined
as `sessionHash`), the transient listener's match test ignores the
`sessionId` field entirely, and such a claim still resolves the check as
`Duplicate`. -/
theorem C8_claim_carries_own_id (A : Session) (H qB sh q : String)
    (tsB tsq tsc tsd : Nat) (m : Message) (sid : Option String)
    (hA : A.isVerified = true) (hH : A.sessionHash = H)
    (hopen : A.channelClosed = false) :
    (step A (.deliver (createHashQueryMessage (some H) (some qB) tsq) tsc)).sent
        = A.sent ++ [createHashClaimMessage (some H) (some qB) (some H) tsc]
      ∧ (createHashClaimMessage (some H) (some qB) (some H) tsc).sessionId
          = some (startSession H qB tsB).sessionId
      ∧ claimMatches sh q { m with sessionId := sid } = claimMatches sh q m
      ∧ (step (startSession H qB tsB)
            (.deliver (createHashClaimMessage (some H) (some qB) (some H) tsc)
              tsd)).resolveCalls = [false] := by
  subst hH
  refine ⟨?_, rfl, rfl, ?_⟩
  · rw [verified_session_answers' A A.sessionHash qB tsq tsc hA hopen rfl]
    exact rfl
  · rw [checking_session_resolves_claim A.sessionHash qB tsB tsd _
      (by simp [claimMatches, createHashClaimMessage, createBaseMessage])]

/-- Claim C8 witness at hash `"abc"`: the resolving claim's `sessionId`
is the checking session's own id, and the check still resolves. -/
theorem C8_claim_carries_own_id_witness :
    claimAB.sessionId = some sessionB0.sessionId
      ∧ sessionB1.resolveCalls = [false] := by
  have h := C8_claim_carries_own_id sessionA1 "abc" "q1" "x" "y" 2 2 3 4
    (createBaseMessage "t" 0) none (by decide) (by decide) (by decide)
  exact ⟨by decide, by
    have := h.2.2.2
    exact (by decide : sessionB1.resolveCalls
      = (step (startSession "abc" "q1" 2)
          (.deliver (createHashClaimMessage (some "abc") (some "q1")
            (some "abc") 3) 4)).resolveCalls).trans this⟩

/-- Claim C9 (implicit): a hash-query built by `createHashQueryMessage`
has no `sessionId` field, the dispatcher's handling of a hash-query is
entirely independent of any `sessionId` the message might carry (the
self-echo check sits after the hash-query branch's early return), and an
unverified session answers no query at all. -/
theorem C9_query_has_no_sender_id (h q : String) (ts ts2 : Nat)
    (s : Session) (m : Message) (sid : Option String)
    (_ht : m.type = MESSAGE_TYPES.SESSION_HASH_QUERY)
    (hv : s.isVerified = false) :
    (createHashQueryMessage (some h) (some q) ts).sessionId = none
      ∧ handleMessageSends s { m with sessionId := sid } ts2
          = handleMessageSends s m ts2
      ∧ handleMessageSends s m ts2 = [] :=
  ⟨rfl, rfl, handleMessageSends_of_unverified s m ts2 hv⟩

/-- Claim C9 witness: the fresh session ignores even a query for its own
hash while unverified. -/
theorem C9_query_has_no_sender_id_witness :
    (createHashQueryMessage (some "abc") (some "q0") 0).sessionId = none
      ∧ handleMessageSends sessionB0
          (createHashQueryMessage (some "abc") (some "q9") 5) 6 = [] := by
  have h := C9_query_has_no_sender_id "abc" "q0" 0 6 sessionB0
    (createHashQueryMessage (some "abc") (some "q9") 5) none rfl (by decide)
  exact ⟨h.1, h.2.2⟩

/-- Claim C10 counterexample: a session that resolved `Duplicate` can
still publish: clicking the close button before the 500 ms teardown runs
`closeSession`, which posts a session-closed message on the still-open
channel. -/
theorem C10_counterexample :
    sessionB1.isClosingAsDuplicate = true
      ∧ sessionB1.resolveCalls = [false]
      ∧ (step sessionB1 (.closeClick 5)).sent
          = sessionB1.sent ++ [createSessionClosedMessage (some "abc") 5] := by
  decide

/-- Claim C10 as amended: after resolving `Duplicate`, the session's
`isVerified` stays false forever, and it publishes nothing through
message delivery, the check timer, the teardown timer or `beforeunload`;
only an explicit close-button click can still post (a session-closed
message). -/
theorem C10_duplicate_mostly_silent (s : Session) (tr tr2 : List Event)
    (hv : s.isVerified = false) (hd : s.isClosingAsDuplicate = true)
    (hl : s.listenerActive = false)
    (hncc : ∀ e ∈ tr, ∀ ts, e ≠ Event.closeClick ts) :
    (run s tr2).isVerified = false ∧ (run s tr).sent = s.sent := by
  obtain ⟨⟨hv2, _, _⟩, _⟩ := dupLocked_run s tr2 ⟨hv, hd, hl⟩
  exact ⟨hv2, dupLocked_run_sent s tr ⟨hv, hd, hl⟩ hncc⟩

/-- Claim C10 (amended) witness: the duplicate-resolved session stays
unverified through a close click, and posts nothing through a
timeout/teardown/unload sequence. -/
theorem C10_duplicate_mostly_silent_witness :
    (run sessionB1 [.closeClick 5]).isVerified = false
      ∧ (run sessionB1 [.timeout 5, .dupTeardown, .beforeunload 6]).sent
          = sessionB1.sent :=
  C10_duplicate_mostly_silent sessionB1
    [.timeout 5, .dupTeardown, .beforeunload 6] [.closeClick 5]
    (by decide) (by decide) (by decide) (by simp)

end BroadcastPoc
